import Mathlib

/-!
# Verification of the semantic-search MCP server core

Shallow embedding of `src/mcp/semantic_search_mcp/semantic_search_mcp_server.py`
(the retrieval re-ranking core of the `slack_hardware_assistant` repository).
Python floats are modelled as exact rationals (`ℚ`); dictionaries with a known
field set become structures with `Option` fields for keys that may be absent;
fallible paths return `Except`.
-/

namespace SemanticMCP

attribute [local semireducible] Rat.add Rat.mul Rat.sub Rat.inv Rat.ofScientific

/-- The `_additional` metadata dictionary a Weaviate hit may carry.
The live code only ever reads the keys `certainty` and `distance`
(requested at lines 463/474 via `.with_additional(["id", "certainty", "distance"])`);
each may be absent. -/
structure Additional where
  certainty : Option ℚ
  distance : Option ℚ
deriving Repr, DecidableEq

/-- A raw hit as returned by the store query, fields read via `hit.get(...)` in
`tool_search_similar` (lines 492-519).  `ts` is read as `hit.get("ts", 0.0)`,
so it may be absent (defaulted to `0.0` at the read site); `_additional` is
read as `hit.get("_additional", {})`, so an absent dictionary is the one with
neither metric. -/
structure StoreHit where
  message_id : String
  workspace_id : String
  channel_id : String
  user_id : String
  text : String
  ts : Option ℚ
  topics : List String
  additional : Additional
deriving Repr, DecidableEq

/-- `SearchResultItem` (lines 87-97): the scored result unit. -/
structure SearchResultItem where
  message_id : String
  workspace_id : String
  channel_id : String
  user_id : String
  text : String
  ts : ℚ
  topics : List String
  semantic_score : ℚ
  recency_score : ℚ
  final_score : ℚ
deriving Repr, DecidableEq

/-- `_compute_recency_score(ts, min_ts, now_ts)` (lines 180-188):
`if ts <= min_ts: return 0.0`, `if ts >= now_ts: return 1.0`, else
`(ts - min_ts) / (now_ts - min_ts + 1e-9)`. -/
def compute_recency_score (ts min_ts now_ts : ℚ) : ℚ :=
  if ts ≤ min_ts then 0
  else if now_ts ≤ ts then 1
  else (ts - min_ts) / (now_ts - min_ts + 1 / 1000000000)

/-- `_extract_semantic_score(additional)` (lines 191-208): prefer `certainty`
used directly; else `max(0.0, min(1.0, 1.0 - distance))`; else `0.0`. -/
def extract_semantic_score (a : Additional) : ℚ :=
  match a.certainty with
  | some c => c
  | none =>
    match a.distance with
    | some d => max 0 (min 1 (1 - d))
    | none => 0

/-- The blend of lines 501-504:
`final_score = (1.0 - req.recency_weight) * semantic_score + req.recency_weight * recency_score`. -/
def blend (recency_weight semantic_score recency_score : ℚ) : ℚ :=
  (1 - recency_weight) * semantic_score + recency_weight * recency_score

/-- The per-hit body of the scoring loop of `tool_search_similar`
(lines 492-519): drop the hit when `semantic_score < req.min_score`,
otherwise blend `final_score = (1 - recency_weight) * semantic_score
+ recency_weight * recency_score` and build the `SearchResultItem`. -/
def scoreHit (min_score recency_weight min_ts now_ts : ℚ) (hit : StoreHit) :
    Option SearchResultItem :=
  let semantic_score := extract_semantic_score hit.additional
  if semantic_score < min_score then none
  else
    let ts_val := hit.ts.getD 0
    let recency_score := compute_recency_score ts_val min_ts now_ts
    let final_score := blend recency_weight semantic_score recency_score
    some {
      message_id := hit.message_id
      workspace_id := hit.workspace_id
      channel_id := hit.channel_id
      user_id := hit.user_id
      text := hit.text
      ts := ts_val
      topics := hit.topics
      semantic_score := semantic_score
      recency_score := recency_score
      final_score := final_score }

/-- The `scored_results` list built by the loop at lines 490-519. -/
def scoredResults (min_score recency_weight min_ts now_ts : ℚ) (hits : List StoreHit) :
    List SearchResultItem :=
  hits.filterMap (scoreHit min_score recency_weight min_ts now_ts)

/-- The comparison used by `scored_results.sort(key=lambda r: r.final_score, reverse=True)`
(line 522).  Python `list.sort` is a stable sort; with `reverse=True` elements
comparing equal keep their original order, which is exactly `List.mergeSort`
with this descending comparator. -/
def finalDesc (a b : SearchResultItem) : Bool :=
  decide (b.final_score ≤ a.final_score)

/-- The sort-and-truncate stage of `tool_search_similar` (lines 521-523):
stable sort by `final_score` descending, then `[: req.top_k]`. -/
def rankHits (min_score recency_weight min_ts now_ts : ℚ) (top_k : ℕ)
    (hits : List StoreHit) : List SearchResultItem :=
  ((scoredResults min_score recency_weight min_ts now_ts hits).mergeSort finalDesc).take top_k

/-- `SearchRequest` (lines 50-84), exactly the fields the pydantic model
declares.  Note: the source comments out `workspace_id` (line 52 reads
`# workspace_id: str`), so the model has **no** `workspace_id` field. -/
structure SearchRequest where
  user_id : Option String
  query : Option String
  topics : Option (List String)
  timeframe_days : ℤ
  top_k : ℕ
  min_score : ℚ
  recency_weight : ℚ
deriving Repr, DecidableEq

/-- The pydantic `Field(ge=..., le=...)` bounds on `SearchRequest`
(lines 61-84): `timeframe_days ∈ [1,365]`, `top_k ∈ [1,100]`,
`min_score ∈ [0,1]`, `recency_weight ∈ [0,1]`. -/
def SearchRequest.Valid (req : SearchRequest) : Prop :=
  1 ≤ req.timeframe_days ∧ req.timeframe_days ≤ 365 ∧
  1 ≤ req.top_k ∧ req.top_k ≤ 100 ∧
  0 ≤ req.min_score ∧ req.min_score ≤ 1 ∧
  0 ≤ req.recency_weight ∧ req.recency_weight ≤ 1

/-- Python truthiness of an optional string: `not x` is true for `None`
and for the empty string. -/
def truthyStr : Option String → Bool
  | none => false
  | some s => !(s == "")

/-- Python truthiness of an optional list: `not x` is true for `None`
and for the empty list. -/
def truthyList : Option (List String) → Bool
  | none => false
  | some l => !l.isEmpty

/-- One operand of the Weaviate `where` filter built at lines 161-172. -/
inductive WhereClause where
  | equalString (path : List String) (value : String)
  | greaterThanEqualNumber (path : List String) (value : ℚ)
deriving Repr, DecidableEq

/-- The Weaviate `where` filter: the code only ever builds an `And` of
operands (lines 174-177). -/
inductive WhereFilter where
  | and (operands : List WhereClause)
deriving Repr, DecidableEq

/-- `_build_where_filter(workspace_id, min_ts)` (lines 157-177): an `And` of
`workspace_id == value` (Equal on valueString) and `ts >= min_ts`
(GreaterThanEqual on valueNumber). -/
def build_where_filter (workspace_id : String) (min_ts : ℚ) : WhereFilter :=
  WhereFilter.and
    [WhereClause.equalString ["workspace_id"] workspace_id,
     WhereClause.greaterThanEqualNumber ["ts"] min_ts]

/-- The Python-level failures `tool_search_similar` can signal:
an `HTTPException(status, detail)` raised deliberately, or an uncaught
`AttributeError` from accessing a missing attribute. -/
inductive PyError where
  | httpError (status : ℕ) (detail : String)
  | attributeError (attr : String)
deriving Repr, DecidableEq

/-- The behaviour of the external vector store for one near-text query:
given the pushed `where` filter, the concept list and the fetch limit it
either returns raw hits or fails. -/
def StoreQuery : Type :=
  WhereFilter → List String → ℕ → Except String (List StoreHit)

/-- `tool_search_similar(req)` (lines 418-526), translated control-flow-faithfully:
1. if `not req.query and not req.topics`, raise `HTTPException(400, ...)`
   (lines 430-434) — before any store access;
2. compute `min_ts = now_ts - req.timeframe_days * 86400` (line 437);
3. evaluate `req.workspace_id` (line 439).  `SearchRequest` declares no
   `workspace_id` field (it is commented out at line 52), so this attribute
   access raises `AttributeError` on every request that passes step 1; the
   store is never queried and the scoring loop below is unreachable. -/
def tool_search_similar (req : SearchRequest) (now_ts : ℚ) (_store : StoreQuery) :
    Except PyError (List SearchResultItem) :=
  if !truthyStr req.query && !truthyList req.topics then
    Except.error (PyError.httpError 400 "Either 'query' or 'topics' must be provided.")
  else
    let _min_ts := now_ts - (req.timeframe_days : ℚ) * 86400
    Except.error (PyError.attributeError "workspace_id")

/-! ## Identity deriver (lines 108-111)

`_upsert_message` derives the store id as
`slack_key = f"{msg.channel_id}:{msg.ts}"` followed by
`weaviate_id = str(uuid.uuid5(uuid.NAMESPACE_URL, slack_key))`.
`msg.ts` is the **parsed float** field of `MessageInput` (line 38), so the key
embeds Python's `str()` of that float, not the raw upstream timestamp string.
We model the float exactly as a rational and `str()` of a float by
`pyFloatStr`, the shortest terminating-decimal rendering with at least one
fractional digit — which is what CPython prints for floats parsed from short
decimal literals.  `uuid5` is modelled in full (SHA-1 over namespace ++ name,
version/variant bits, hex rendering), kernel-checked against RFC 4122. -/

/-- Reduce modulo `2^32` (SHA-1 word arithmetic). -/
def u32 (n : ℕ) : ℕ := n % 4294967296

/-- Rotate a 32-bit word left by `k` (for `x < 2^32`, `k ≤ 31`). -/
def rotl32 (x k : ℕ) : ℕ := (x * 2 ^ k) % 4294967296 + x / 2 ^ (32 - k)

/-- Big-endian bytes of a 32-bit word. -/
def be32 (n : ℕ) : List ℕ :=
  [n / 2 ^ 24 % 256, n / 2 ^ 16 % 256, n / 2 ^ 8 % 256, n % 256]

/-- Big-endian bytes of a 64-bit length field. -/
def be64 (n : ℕ) : List ℕ :=
  (List.range 8).map fun i => n / 2 ^ (8 * (7 - i)) % 256

/-- SHA-1 padding: `0x80`, zeros to 56 mod 64, then the 64-bit bit length. -/
def sha1Pad (msg : List ℕ) : List ℕ :=
  msg ++ [128] ++ List.replicate ((119 - msg.length % 64) % 64) 0 ++ be64 (8 * msg.length)

/-- Split a byte list into 64-byte chunks (fuel-driven structural recursion). -/
def chunks64Go : ℕ → List ℕ → List (List ℕ)
  | 0, _ => []
  | _, [] => []
  | fuel + 1, a :: rest =>
    (a :: rest).take 64 :: chunks64Go fuel ((a :: rest).drop 64)

/-- Split a byte list into 64-byte chunks. -/
def chunks64 (l : List ℕ) : List (List ℕ) := chunks64Go (l.length + 1) l

/-- The 16 big-endian 32-bit words of one 64-byte chunk. -/
def words16 (chunk : List ℕ) : List ℕ :=
  (List.range 16).map fun i =>
    chunk.getD (4 * i) 0 * 2 ^ 24 + chunk.getD (4 * i + 1) 0 * 2 ^ 16 +
    chunk.getD (4 * i + 2) 0 * 2 ^ 8 + chunk.getD (4 * i + 3) 0

/-- Extend 16 schedule words to 80: `w[i] = rotl1 (w[i-3] ^ w[i-8] ^ w[i-14] ^ w[i-16])`. -/
def sha1Extend (ws : List ℕ) : List ℕ :=
  (List.range 80).foldl
    (fun acc i =>
      acc ++ [if i < 16 then ws.getD i 0
        else rotl32 (acc.getD (i - 3) 0 ^^^ acc.getD (i - 8) 0 ^^^
          acc.getD (i - 14) 0 ^^^ acc.getD (i - 16) 0) 1])
    []

/-- The five SHA-1 working registers. -/
structure Sha1State where
  a : ℕ
  b : ℕ
  c : ℕ
  d : ℕ
  e : ℕ

/-- One SHA-1 round. -/
def sha1Round (i w : ℕ) (st : Sha1State) : Sha1State :=
  let f :=
    if i < 20 then (st.b &&& st.c) ||| ((st.b ^^^ 4294967295) &&& st.d)
    else if i < 40 then st.b ^^^ st.c ^^^ st.d
    else if i < 60 then (st.b &&& st.c) ||| (st.b &&& st.d) ||| (st.c &&& st.d)
    else st.b ^^^ st.c ^^^ st.d
  let k :=
    if i < 20 then 0x5A827999
    else if i < 40 then 0x6ED9EBA1
    else if i < 60 then 0x8F1BBCDC
    else 0xCA62C1D6
  { a := u32 (rotl32 st.a 5 + f + st.e + k + w)
    b := st.a
    c := rotl32 st.b 30
    d := st.c
    e := st.d }

/-- Process one 64-byte chunk. -/
def sha1Chunk (h : Sha1State) (chunk : List ℕ) : Sha1State :=
  let st := (sha1Extend (words16 chunk)).enum.foldl (fun st p => sha1Round p.1 p.2 st) h
  { a := u32 (h.a + st.a), b := u32 (h.b + st.b), c := u32 (h.c + st.c)
    d := u32 (h.d + st.d), e := u32 (h.e + st.e) }

/-- SHA-1 digest (20 bytes) of a byte list. -/
def sha1 (msg : List ℕ) : List ℕ :=
  let s := (chunks64 (sha1Pad msg)).foldl sha1Chunk
    ⟨0x67452301, 0xEFCDAB89, 0x98BADCFE, 0x10325476, 0xC3D2E1F0⟩
  be32 s.a ++ be32 s.b ++ be32 s.c ++ be32 s.d ++ be32 s.e

/-- The 16 bytes of `uuid.NAMESPACE_URL` (`6ba7b811-9dad-11d1-80b4-00c04fd430c8`). -/
def NAMESPACE_URL : List ℕ :=
  [0x6b, 0xa7, 0xb8, 0x11, 0x9d, 0xad, 0x11, 0xd1, 0x80, 0xb4, 0x00, 0xc0, 0x4f, 0xd4, 0x30, 0xc8]

/-- Bytes of an ASCII string (the keys derived here are all ASCII, where
UTF-8 bytes and code points coincide). -/
def strBytes (s : String) : List ℕ := s.toList.map Char.toNat

/-- `uuid.uuid5(ns, name)`: first 16 bytes of `sha1(ns.bytes + name)`,
with the version nibble forced to 5 and the RFC 4122 variant bits set. -/
def uuid5Bytes (ns : List ℕ) (name : String) : List ℕ :=
  let d := (sha1 (ns ++ strBytes name)).take 16
  let d := d.set 6 ((d.getD 6 0 &&& 0x0F) ||| 0x50)
  d.set 8 ((d.getD 8 0 &&& 0x3F) ||| 0x80)

/-- Lowercase hex digit. -/
def hexChar (n : ℕ) : Char := if n < 10 then Char.ofNat (48 + n) else Char.ofNat (87 + n)

/-- Two lowercase hex digits of a byte. -/
def byteHex (b : ℕ) : String := String.mk [hexChar (b / 16), hexChar (b % 16)]

/-- Lowercase hex of a byte list. -/
def bytesHex (bs : List ℕ) : String := String.join (bs.map byteHex)

/-- `str(uuid)`: canonical 8-4-4-4-12 lowercase hex form. -/
def uuidStr (bs : List ℕ) : String :=
  bytesHex (bs.take 4) ++ "-" ++ bytesHex ((bs.drop 4).take 2) ++ "-" ++
  bytesHex ((bs.drop 6).take 2) ++ "-" ++ bytesHex ((bs.drop 8).take 2) ++ "-" ++
  bytesHex (bs.drop 10)

/-- `str(uuid.uuid5(ns, name))`. -/
def uuid5 (ns : List ℕ) (name : String) : String := uuidStr (uuid5Bytes ns name)

/-- Smallest `n < 40` with `q * 10^n` integral (39 when none exists). -/
def decExp (q : ℚ) : ℕ :=
  (((List.range 40).find? fun n => (q * (10 : ℚ) ^ n).den == 1).getD 39)

/-- Left-pad a digit string with zeros to length `n`. -/
def zeroPad (s : String) (n : ℕ) : String :=
  String.mk (List.replicate (n - s.length) '0') ++ s

/-- Python `str()` of a float holding the exact value `q`, for values that are
short terminating decimals: the shortest decimal rendering with at least one
fractional digit (e.g. `3/2 ↦ "1.5"`, `1711000000 ↦ "1711000000.0"`).  CPython
prints the shortest round-tripping decimal, which for a float parsed from a
short decimal literal is exactly that literal with trailing zeros stripped. -/
def pyFloatStr (q : ℚ) : String :=
  let n := if decExp q = 0 then 1 else decExp q
  let m := (q * (10 : ℚ) ^ n).num
  let a := m.natAbs
  (if m < 0 then "-" else "") ++ Nat.repr (a / 10 ^ n) ++ "." ++
    zeroPad (Nat.repr (a % 10 ^ n)) n

/-- Digits-only character list to its numeric value. -/
def digitsToNat? (cs : List Char) : Option ℕ :=
  if cs.isEmpty then none
  else if cs.all fun c => c.isDigit then
    some (cs.foldl (fun acc c => 10 * acc + (c.toNat - 48)) 0)
  else none

/-- Split a character list on `'.'`. -/
def splitDot : List Char → List (List Char)
  | [] => [[]]
  | c :: rest =>
    let r := splitDot rest
    if c = '.' then [] :: r
    else (c :: r.headD []) :: r.tail

/-- Parse a plain decimal literal (optional sign, digits, optional fractional
digits) to its exact rational value: the value a JSON/pydantic float field
receives from such a literal (exact for short decimals such as the Slack
timestamps at issue here). -/
def parseDecimal (s : String) : Option ℚ :=
  let cs := s.toList
  let neg := cs.headD ' ' = '-'
  let sgn : ℚ := if neg then -1 else 1
  let body := if neg then cs.tail else cs
  match splitDot body with
  | [ip] => (digitsToNat? ip).map fun n => sgn * mkRat n 1
  | [ip, fp] =>
    match digitsToNat? ip, digitsToNat? fp with
    | some i, some f => some (sgn * (mkRat i 1 + mkRat f (10 ^ fp.length)))
    | _, _ => none
  | _ => none

/-- `slack_key = f"{msg.channel_id}:{msg.ts}"` (line 110), with `msg.ts` the
parsed float timestamp. -/
def slackKey (channel_id : String) (ts : ℚ) : String :=
  channel_id ++ ":" ++ pyFloatStr ts

/-- `weaviate_id = str(uuid.uuid5(uuid.NAMESPACE_URL, slack_key))` (line 111). -/
def derive_weaviate_id (channel_id : String) (ts : ℚ) : String :=
  uuid5 NAMESPACE_URL (slackKey channel_id ts)

/-- Modelled from the spec: §4.1 `derive_id(channel_id, raw_ts)` — the
name-based hash with the fixed namespace constant over the canonical
concatenation `"{channel_id}:{raw_ts}"`, taking the **raw timestamp string
exactly as received** (the spec's contract; the source has no such function —
its key uses the parsed float field). -/
def spec_derive_id (channel_id raw_ts : String) : String :=
  uuid5 NAMESPACE_URL (channel_id ++ ":" ++ raw_ts)

/-! ## Upsert pipeline (lines 28-48, 108-154, 279-303) -/

/-- `MessageInput` (lines 28-39). -/
structure MessageInput where
  message_id : String
  workspace_id : String
  channel_id : String
  user_id : String
  text : String
  ts : ℚ
  topics : Option (List String)
deriving Repr, DecidableEq

/-- The `data` properties dictionary built at lines 113-121
(`"topics": msg.topics or []`). -/
structure MsgData where
  message_id : String
  workspace_id : String
  channel_id : String
  user_id : String
  text : String
  ts : ℚ
  topics : List String
deriving Repr, DecidableEq

/-- Lines 113-121. -/
def msgData (msg : MessageInput) : MsgData :=
  { message_id := msg.message_id
    workspace_id := msg.workspace_id
    channel_id := msg.channel_id
    user_id := msg.user_id
    text := msg.text
    ts := msg.ts
    topics := msg.topics.getD [] }

/-- A `WeaviateBaseError`: a machine-readable status code (when the underlying
HTTP failure carries one) and the human-readable message that `str(e)` shows. -/
structure WeaviateError where
  status_code : Option ℕ
  message : String
deriving Repr, DecidableEq

/-- `str(e)` of a `WeaviateBaseError`: its human-readable message. -/
def errStr (e : WeaviateError) : String := e.message

/-- `listHasPrefix s pat`: `pat` is a prefix of `s`. -/
def listHasPrefix : List Char → List Char → Bool
  | _, [] => true
  | [], _ :: _ => false
  | a :: s, b :: p => a == b && listHasPrefix s p

/-- `listHasSub s pat`: `pat` occurs as a contiguous run of `s`. -/
def listHasSub : List Char → List Char → Bool
  | [], pat => pat.isEmpty
  | a :: rest, pat => listHasPrefix (a :: rest) pat || listHasSub rest pat

/-- Python's `pat in s` substring test. -/
def strContains (s pat : String) : Bool := listHasSub s.toList pat.toList

/-- `s.lower()`: lowercase every character. -/
def strLower (s : String) : String := String.mk (s.toList.map Char.toLower)

/-- The not-found test the source actually performs (lines 140-141):
`msg_text = str(e)` and then `"404" in msg_text or "not found" in msg_text.lower()`
— a substring match on the human-readable message. -/
def notFoundSignal (e : WeaviateError) : Bool :=
  strContains (errStr e) "404" || strContains (strLower (errStr e)) "not found"

/-- Modelled from the spec: §4.2/§7 say the store's "not found" signal is
"detected by inspecting the error's status/category — not by string-matching
human-readable messages"; the source contains no such structural classifier,
so it is modelled here as reading the machine status code and nothing else. -/
def notFoundStructural (e : WeaviateError) : Bool := e.status_code == some 404

/-- The two mutation operations the upsert path uses on the vector store
(`collection.data.update` / `collection.data.insert`), as arbitrary
behaviours keyed by object id and properties. -/
structure StoreOps where
  update : String → MsgData → Except WeaviateError Unit
  insert : String → MsgData → Except WeaviateError Unit

/-- How `_upsert_message` resolved a record. -/
inductive UpsertOutcome where
  | updated
  | inserted
deriving Repr, DecidableEq

/-- `_upsert_message(msg)` (lines 108-154): derive the id, try `update`; on an
error whose stringified text matches the not-found substrings, fall back to
`insert` with the same id and data (re-raising an insert failure); any other
update error is re-raised. -/
def upsert_message (ops : StoreOps) (msg : MessageInput) :
    Except WeaviateError UpsertOutcome :=
  let weaviate_id := derive_weaviate_id msg.channel_id msg.ts
  let data := msgData msg
  match ops.update weaviate_id data with
  | Except.ok _ => Except.ok UpsertOutcome.updated
  | Except.error e =>
    if notFoundSignal e then
      match ops.insert weaviate_id data with
      | Except.ok _ => Except.ok UpsertOutcome.inserted
      | Except.error inner => Except.error inner
    else Except.error e

/-- The `for msg in req.messages: _upsert_message(msg); count += 1` loop of
`tool_embed_and_upsert` (lines 293-299), with the store effects it performed:
first component is how many records were written before the loop stopped,
second is the uncaught exception when one record failed. -/
def upsertRun (ops : StoreOps) : List MessageInput → ℕ × Option WeaviateError
  | [] => (0, none)
  | m :: rest =>
    match upsert_message ops m with
    | Except.ok _ =>
      let r := upsertRun ops rest
      (r.1 + 1, r.2)
    | Except.error e => (0, some e)

/-- `tool_embed_and_upsert(req)` (lines 279-303): empty batch returns count 0;
otherwise run the loop and return the count, except that any single record's
uncaught failure aborts the whole call with `HTTPException(500, str(e))`
(the `try` at lines 293-299 wraps the entire loop). -/
def tool_embed_and_upsert (ops : StoreOps) (messages : List MessageInput) :
    Except PyError ℕ :=
  if messages.isEmpty then Except.ok 0
  else
    match upsertRun ops messages with
    | (c, none) => Except.ok c
    | (_, some e) => Except.error (PyError.httpError 500 (errStr e))

example :
    compute_recency_score 5 0 5 = 1 ∧ compute_recency_score 0 0 5 = 0 := by
  constructor <;> norm_num [compute_recency_score]

example :
    extract_semantic_score ⟨some (9/10), some (1/2)⟩ = 9/10 ∧
    extract_semantic_score ⟨none, some (3/10)⟩ = 7/10 ∧
    extract_semantic_score ⟨none, none⟩ = 0 := by
  refine ⟨rfl, ?_, rfl⟩
  norm_num [extract_semantic_score]

/-! ## Helper lemmas -/

theorem scoredResults_mem_spec {min_score recency_weight min_ts now_ts : ℚ}
    {hits : List StoreHit} {r : SearchResultItem}
    (h : r ∈ scoredResults min_score recency_weight min_ts now_ts hits) :
    min_score ≤ r.semantic_score ∧
    r.final_score = blend recency_weight r.semantic_score r.recency_score := by
  obtain ⟨hit, -, hsome⟩ := List.mem_filterMap.mp h
  unfold scoreHit at hsome
  by_cases hc : extract_semantic_score hit.additional < min_score
  · simp [hc] at hsome
  · simp only [hc, if_neg, if_false] at hsome
    cases hsome
    exact ⟨not_lt.mp hc, rfl⟩

theorem scoredResults_length_countP (min_score recency_weight min_ts now_ts : ℚ)
    (hits : List StoreHit) :
    (scoredResults min_score recency_weight min_ts now_ts hits).length =
      hits.countP fun h => decide (min_score ≤ extract_semantic_score h.additional) := by
  induction hits with
  | nil => rfl
  | cons hd tl ih =>
    by_cases hc : extract_semantic_score hd.additional < min_score
    · have hd' : (decide (min_score ≤ extract_semantic_score hd.additional)) = false := by
        simpa using hc
      simp [scoredResults, List.filterMap_cons, List.countP_cons, scoreHit, hc, hd',
        scoredResults] at ih ⊢
      exact ih
    · have hd' : (decide (min_score ≤ extract_semantic_score hd.additional)) = true := by
        simpa using not_lt.mp hc
      simp [scoredResults, List.filterMap_cons, List.countP_cons, scoreHit, hc, hd'] at ih ⊢
      exact ih

theorem finalDesc_trans : ∀ a b c : SearchResultItem,
    finalDesc a b → finalDesc b c → finalDesc a c := by
  intro a b c hab hbc
  simp only [finalDesc, decide_eq_true_eq] at *
  exact hbc.trans hab

theorem finalDesc_total : ∀ a b : SearchResultItem, finalDesc a b || finalDesc b a := by
  intro a b
  simpa only [finalDesc, Bool.or_eq_true, decide_eq_true_eq] using
    le_total b.final_score a.final_score

theorem rankHits_subset_scored {min_score recency_weight min_ts now_ts : ℚ} {k : ℕ}
    {hits : List StoreHit} {r : SearchResultItem}
    (h : r ∈ rankHits min_score recency_weight min_ts now_ts k hits) :
    r ∈ scoredResults min_score recency_weight min_ts now_ts hits :=
  List.mem_mergeSort.mp (List.mem_of_mem_take h)

/-! ## Claim theorems -/

/-- C1: in `search_similar`'s scoring stage, a hit whose `semantic_score` is
strictly below `req.min_score` is dropped before blending and never appears in
the results: every returned item has `semantic_score ≥ min_score`, for every
candidate hit list and all recency parameters (recency cannot rescue a
below-threshold hit). -/
theorem C1_threshold_enforced (min_score recency_weight min_ts now_ts : ℚ) (top_k : ℕ)
    (hits : List StoreHit) (r : SearchResultItem)
    (h : r ∈ rankHits min_score recency_weight min_ts now_ts top_k hits) :
    min_score ≤ r.semantic_score :=
  (scoredResults_mem_spec (rankHits_subset_scored h)).1

/-- A store hit used to witness the claims on concrete inputs. -/
def hitW : StoreHit := ⟨"m", "w", "c", "u", "t", some 100, [], ⟨some (9/10), none⟩⟩

/-- The result item the pipeline produces for `hitW` under
`min_score = 1/2`, `recency_weight = 3/10`, `min_ts = 0`, `now_ts = 100`. -/
def itemW : SearchResultItem := ⟨"m", "w", "c", "u", "t", 100, [], 9/10, 1, blend (3/10) (9/10) 1⟩

theorem C1_threshold_enforced_witness :
    itemW ∈ rankHits (1/2) (3/10) 0 100 5 [hitW] ∧ (1/2 : ℚ) ≤ itemW.semantic_score := by
  have hmem : itemW ∈ rankHits (1/2) (3/10) 0 100 5 [hitW] := by
    unfold rankHits
    rw [show scoredResults (1/2) (3/10) 0 100 [hitW] = [itemW] from rfl,
      List.mergeSort_singleton]
    exact List.mem_singleton_self _
  exact ⟨hmem, C1_threshold_enforced (1/2) (3/10) 0 100 5 [hitW] itemW hmem⟩

/-- C2: every hit passing the threshold gets
`final_score = (1 - recency_weight) * semantic_score + recency_weight * recency_score`;
for weight and scores in `[0,1]` the blend lies in `[0,1]` and is monotone
non-decreasing in each score separately; weight `0` returns the semantic score
and weight `1` the recency score. -/
theorem C2_blend_properties (min_score recency_weight min_ts now_ts : ℚ) (top_k : ℕ)
    (hits : List StoreHit) :
    (∀ r ∈ rankHits min_score recency_weight min_ts now_ts top_k hits,
      r.final_score = (1 - recency_weight) * r.semantic_score
        + recency_weight * r.recency_score) ∧
    (∀ s rc : ℚ, 0 ≤ recency_weight → recency_weight ≤ 1 → 0 ≤ s → s ≤ 1 →
      0 ≤ rc → rc ≤ 1 →
      0 ≤ blend recency_weight s rc ∧ blend recency_weight s rc ≤ 1) ∧
    (∀ s s' rc : ℚ, 0 ≤ recency_weight → recency_weight ≤ 1 → s ≤ s' →
      blend recency_weight s rc ≤ blend recency_weight s' rc) ∧
    (∀ s rc rc' : ℚ, 0 ≤ recency_weight → recency_weight ≤ 1 → rc ≤ rc' →
      blend recency_weight s rc ≤ blend recency_weight s rc') ∧
    (∀ s rc : ℚ, blend 0 s rc = s ∧ blend 1 s rc = rc) := by
  refine ⟨?_, ?_, ?_, ?_, ?_⟩
  · intro r hr
    exact (scoredResults_mem_spec (rankHits_subset_scored hr)).2
  · intro s rc hw0 hw1 hs0 hs1 hr0 hr1
    unfold blend
    constructor
    · have h1 : 0 ≤ (1 - recency_weight) * s := mul_nonneg (by linarith) hs0
      have h2 : 0 ≤ recency_weight * rc := mul_nonneg hw0 hr0
      linarith
    · nlinarith
  · intro s s' rc hw0 hw1 hss
    unfold blend
    nlinarith
  · intro s rc rc' hw0 hw1 hrr
    unfold blend
    nlinarith
  · intro s rc
    unfold blend
    constructor <;> ring

theorem C2_blend_properties_witness :
    ((1 : ℚ) - 3/10) * (9/10) + (3/10) * 1 = itemW.final_score ∧
    ((0:ℚ) ≤ blend (3/10) (9/10) 1 ∧ blend (3/10) (9/10) 1 ≤ 1) ∧
    blend (3/10) (1/2) 1 ≤ blend (3/10) (9/10) 1 ∧
    blend (3/10) (9/10) (1/2) ≤ blend (3/10) (9/10) 1 ∧
    blend 0 (9/10) (1/2) = 9/10 ∧ blend 1 (9/10) (1/2) = 1/2 := by
  have hmem : itemW ∈ rankHits (1/2) (3/10) 0 100 5 [hitW] := by
    unfold rankHits
    rw [show scoredResults (1/2) (3/10) 0 100 [hitW] = [itemW] from rfl,
      List.mergeSort_singleton]
    exact List.mem_singleton_self _
  have h := C2_blend_properties (1/2) (3/10) 0 100 5 [hitW]
  refine ⟨(h.1 itemW hmem).symm, ?_, ?_, ?_, ?_, ?_⟩
  · exact h.2.1 (9/10) 1 (by norm_num) (by norm_num) (by norm_num) (by norm_num)
      (by norm_num) (by norm_num)
  · exact h.2.2.1 (1/2) (9/10) 1 (by norm_num) (by norm_num) (by norm_num)
  · exact h.2.2.2.1 (9/10) (1/2) 1 (by norm_num) (by norm_num) (by norm_num)
  · exact (h.2.2.2.2 (9/10) (1/2)).1
  · exact (h.2.2.2.2 (9/10) (1/2)).2

/-- C3: the scoring stage returns the scored hits stable-sorted by
`final_score` descending — result length is `min(top_k, qualifying_hit_count)`
where qualifying means passing the `min_score` threshold; the output is
pairwise descending in `final_score`; items of equal `final_score` appear in
the sorted list exactly in their original store order; and an empty candidate
set yields an empty result list, not an error. -/
theorem C3_sort_and_truncate (min_score recency_weight min_ts now_ts : ℚ) (top_k : ℕ)
    (hits : List StoreHit) :
    (rankHits min_score recency_weight min_ts now_ts top_k hits).length
      = min top_k (scoredResults min_score recency_weight min_ts now_ts hits).length ∧
    (scoredResults min_score recency_weight min_ts now_ts hits).length
      = hits.countP (fun h => decide (min_score ≤ extract_semantic_score h.additional)) ∧
    List.Pairwise (fun a b : SearchResultItem => b.final_score ≤ a.final_score)
      (rankHits min_score recency_weight min_ts now_ts top_k hits) ∧
    (∀ q : ℚ,
      ((scoredResults min_score recency_weight min_ts now_ts hits).mergeSort
          finalDesc).filter (fun r => decide (r.final_score = q))
        = (scoredResults min_score recency_weight min_ts now_ts hits).filter
            (fun r => decide (r.final_score = q))) ∧
    (hits = [] → rankHits min_score recency_weight min_ts now_ts top_k hits = []) := by
  refine ⟨?_, scoredResults_length_countP _ _ _ _ _, ?_, ?_, ?_⟩
  · unfold rankHits
    rw [List.length_take, List.length_mergeSort]
  · have hs := @List.sorted_mergeSort _ finalDesc finalDesc_trans finalDesc_total
      (scoredResults min_score recency_weight min_ts now_ts hits)
    have htake := hs.sublist (List.take_sublist top_k _)
    exact htake.imp fun h => of_decide_eq_true h
  · intro q
    set scored := scoredResults min_score recency_weight min_ts now_ts hits with hscored
    set p : SearchResultItem → Bool := fun r => decide (r.final_score = q) with hp
    have hAmem : ∀ a ∈ scored.filter p, p a = true := fun a ha => (List.mem_filter.mp ha).2
    have hApair : (scored.filter p).Pairwise (fun a b => finalDesc a b = true) := by
      refine List.pairwise_of_forall_mem_list fun a ha b hb => ?_
      have ha' : a.final_score = q := of_decide_eq_true (hAmem a ha)
      have hb' : b.final_score = q := of_decide_eq_true (hAmem b hb)
      simp [finalDesc, ha', hb']
    have h1 : (scored.filter p).Sublist (scored.mergeSort finalDesc) :=
      List.sublist_mergeSort finalDesc_trans finalDesc_total hApair
        (List.filter_sublist scored)
    have h2 : (scored.filter p).Sublist ((scored.mergeSort finalDesc).filter p) := by
      have := h1.filter p
      rwa [List.filter_eq_self.mpr hAmem] at this
    have h3 : ((scored.mergeSort finalDesc).filter p).Perm (scored.filter p) :=
      (List.mergeSort_perm scored finalDesc).filter p
    exact (h2.eq_of_length h3.length_eq.symm).symm
  · intro h
    subst h
    simp [rankHits, scoredResults]

theorem C3_sort_and_truncate_witness :
    (((scoredResults (1/2) (3/10) 0 100 [hitW]).mergeSort finalDesc).filter
        (fun r => decide (r.final_score = blend (3/10) (9/10) 1))
      = (scoredResults (1/2) (3/10) 0 100 [hitW]).filter
          (fun r => decide (r.final_score = blend (3/10) (9/10) 1))) ∧
    rankHits (1/2) (3/10) 0 100 5 [] = [] :=
  ⟨(C3_sort_and_truncate (1/2) (3/10) 0 100 5 [hitW]).2.2.2.1 (blend (3/10) (9/10) 1),
   (C3_sort_and_truncate (1/2) (3/10) 0 100 5 []).2.2.2.2 rfl⟩

/-- Modelled from the spec: the recency formula §4.4 step 2 claims,
`clamp((ts - min_ts) / (now - min_ts + ε), 0, 1)` with `ε = 1e-9`. -/
def spec_recency_formula (ts min_ts now_ts : ℚ) : ℚ :=
  max 0 (min 1 ((ts - min_ts) / (now_ts - min_ts + 1 / 1000000000)))

/-- C4 counterexample: at `ts = now = 1`, `min_ts = 0` the code returns exactly
`1` while the claimed clamp formula yields `1/(1 + 1e-9) < 1`, so
`recency_score` does not equal the clamp expression for every hit — the claim's
formula clause and its "at or after now scores 1" clause contradict each other
on the code. -/
theorem C4_recency_formula_counterexample :
    compute_recency_score 1 0 1 = 1 ∧
    spec_recency_formula 1 0 1 < 1 ∧
    compute_recency_score 1 0 1 ≠ spec_recency_formula 1 0 1 := by
  refine ⟨by decide, by decide, by decide⟩

/-- C4 (amended): `_compute_recency_score` returns exactly `0` for
`ts ≤ min_ts`, exactly `1` for `ts ≥ now` (provided `min_ts < ts`, which always
holds in a non-degenerate window), and equals the clamp formula
`clamp((ts - min_ts)/(now - min_ts + 1e-9), 0, 1)` strictly between the two
boundaries; the boundary branches also guard the division when
`now == min_ts`.  In particular a hit exactly at `min_ts` scores 0 and a hit
at or after `now` scores 1. -/
theorem C4_recency_amended (ts min_ts now_ts : ℚ) :
    (ts ≤ min_ts → compute_recency_score ts min_ts now_ts = 0) ∧
    (now_ts ≤ ts → min_ts < ts → compute_recency_score ts min_ts now_ts = 1) ∧
    (min_ts < ts → ts < now_ts →
      compute_recency_score ts min_ts now_ts = spec_recency_formula ts min_ts now_ts) := by
  refine ⟨?_, ?_, ?_⟩
  · intro h
    unfold compute_recency_score
    rw [if_pos h]
  · intro hnow hmin
    unfold compute_recency_score
    rw [if_neg (not_le.mpr hmin), if_pos hnow]
  · intro h1 h2
    unfold compute_recency_score spec_recency_formula
    rw [if_neg (not_le.mpr h1), if_neg (not_le.mpr h2)]
    have hden : (0 : ℚ) < now_ts - min_ts + 1 / 1000000000 := by linarith
    have hpos : 0 < (ts - min_ts) / (now_ts - min_ts + 1 / 1000000000) :=
      div_pos (by linarith) hden
    have hlt : (ts - min_ts) / (now_ts - min_ts + 1 / 1000000000) < 1 :=
      (div_lt_one hden).mpr (by linarith)
    rw [min_eq_right hlt.le, max_eq_right hpos.le]

theorem C4_recency_amended_witness :
    compute_recency_score 0 0 5 = 0 ∧
    compute_recency_score 5 0 5 = 1 ∧
    compute_recency_score 1 0 2 = spec_recency_formula 1 0 2 :=
  ⟨(C4_recency_amended 0 0 5).1 le_rfl,
   (C4_recency_amended 5 0 5).2.1 (by norm_num) (by norm_num),
   (C4_recency_amended 1 0 2).2.2 (by norm_num) (by norm_num)⟩

/-- C5: semantic score extraction — a present certainty is used directly;
otherwise a present distance yields `clamp(1 - distance, 0, 1)`; with neither
metric the score is `0` (the function is total: fail-soft, no error). -/
theorem C5_semantic_extraction (a : Additional) :
    (∀ c, a.certainty = some c → extract_semantic_score a = c) ∧
    (a.certainty = none → ∀ d, a.distance = some d →
      extract_semantic_score a = max 0 (min 1 (1 - d))) ∧
    (a.certainty = none → a.distance = none → extract_semantic_score a = 0) := by
  refine ⟨?_, ?_, ?_⟩
  · intro c hc
    simp [extract_semantic_score, hc]
  · intro hc d hd
    simp [extract_semantic_score, hc, hd]
  · intro hc hd
    simp [extract_semantic_score, hc, hd]

theorem C5_semantic_extraction_witness :
    extract_semantic_score ⟨some (9/10), some (1/2)⟩ = 9/10 ∧
    extract_semantic_score ⟨none, some (3/10)⟩ = max 0 (min 1 (1 - 3/10)) ∧
    extract_semantic_score ⟨none, none⟩ = 0 :=
  ⟨(C5_semantic_extraction ⟨some (9/10), some (1/2)⟩).1 (9/10) rfl,
   (C5_semantic_extraction ⟨none, some (3/10)⟩).2.1 rfl (3/10) rfl,
   (C5_semantic_extraction ⟨none, none⟩).2.2 rfl rfl⟩

/-- C6: a request with neither `query` nor `topics` is rejected with the
client-error signal `HTTPException(400, ...)`, and the outcome is the same for
every store behaviour — the validation failure happens before any vector-store
access. -/
theorem C6_missing_query_rejected (req : SearchRequest) (hq : req.query = none)
    (ht : req.topics = none) (now_ts : ℚ) (store : StoreQuery) :
    tool_search_similar req now_ts store
      = Except.error (PyError.httpError 400 "Either 'query' or 'topics' must be provided.") := by
  unfold tool_search_similar
  rw [hq, ht]
  simp [truthyStr, truthyList]

theorem C6_missing_query_rejected_witness :
    tool_search_similar ⟨none, none, none, 60, 20, 0, 3/10⟩ 0 (fun _ _ _ => Except.ok [])
      = Except.error (PyError.httpError 400 "Either 'query' or 'topics' must be provided.") :=
  C6_missing_query_rejected ⟨none, none, none, 60, 20, 0, 3/10⟩ rfl rfl 0 _

/-- C7 (code bug witnessed): for the valid request `{query: "pcb"}` (all other
fields defaulted), `search_similar` fails with `AttributeError` on
`workspace_id` — the field is commented out of `SearchRequest` (line 52) while
line 439 still reads `req.workspace_id` — for every store behaviour and clock,
so the workspace/timeframe filter of `_build_where_filter` is never pushed to
the store. -/
theorem C7_workspace_attribute_crash :
    ∀ (now_ts : ℚ) (store : StoreQuery),
      tool_search_similar ⟨none, some "pcb", none, 60, 20, 0, 3/10⟩ now_ts store
        = Except.error (PyError.attributeError "workspace_id") :=
  fun _ _ => rfl

set_option maxRecDepth 200000 in
/-- C8 counterexample: a message whose raw upstream timestamp string is
`"1.50"` is parsed to the float value `3/2` (exactly as `"1.5"` is), and the
code derives the id of the key `"C67890:1.5"` — which differs from the
name-based hash over the canonical concatenation with the raw string
(`"C67890:1.50"`).  The id is therefore a function of the parsed float, not of
"the raw timestamp string exactly as received". -/
theorem C8_raw_ts_counterexample :
    parseDecimal "1.50" = some (3/2) ∧ parseDecimal "1.5" = some (3/2) ∧
    derive_weaviate_id "C67890" (3/2) = uuid5 NAMESPACE_URL "C67890:1.5" ∧
    spec_derive_id "C67890" "1.50" = uuid5 NAMESPACE_URL "C67890:1.50" ∧
    derive_weaviate_id "C67890" (3/2) ≠ spec_derive_id "C67890" "1.50" := by
  refine ⟨by decide, by decide, rfl, rfl, by decide⟩

/-- C8 (amended): the identifier is `uuid5` with the fixed `NAMESPACE_URL`
constant over `"{channel_id}:{ts}"` where `ts` is the *parsed float* timestamp
formatted back to a string; it is deterministic — in particular, any two raw
timestamp strings that parse to the same float value yield the identical
identifier (e.g. `"1.5"` and `"1.50"` collide rather than hashing apart). -/
theorem C8_derive_id_amended (c r₁ r₂ : String) (q : ℚ)
    (h₁ : parseDecimal r₁ = some q) (h₂ : parseDecimal r₂ = some q) :
    derive_weaviate_id c q = uuid5 NAMESPACE_URL (c ++ ":" ++ pyFloatStr q) ∧
    derive_weaviate_id c ((parseDecimal r₁).getD 0)
      = derive_weaviate_id c ((parseDecimal r₂).getD 0) := by
  refine ⟨rfl, ?_⟩
  rw [h₁, h₂]

theorem C8_derive_id_amended_witness :
    parseDecimal "1.5" = some (3/2) ∧ parseDecimal "1.50" = some (3/2) ∧
    derive_weaviate_id "C67890" ((parseDecimal "1.5").getD 0)
      = derive_weaviate_id "C67890" ((parseDecimal "1.50").getD 0) :=
  ⟨by decide, by decide,
   (C8_derive_id_amended "C67890" "1.5" "1.50" (3/2) (by decide) (by decide)).2⟩

/-- C9 counterexample: the error `⟨status 500, "connection refused on port
8404"⟩` is not a structural not-found (status 500), yet the code's
substring test classifies it as not-found (the text contains `"404"`), and an
update failing with it triggers the fallback insert.  The classification is
substring matching on the human-readable message, not an inspection of the
error's status/category. -/
theorem C9_substring_classification_counterexample :
    notFoundStructural ⟨some 500, "connection refused on port 8404"⟩ = false ∧
    notFoundSignal ⟨some 500, "connection refused on port 8404"⟩ = true ∧
    upsert_message
      ⟨fun _ _ => Except.error ⟨some 500, "connection refused on port 8404"⟩,
       fun _ _ => Except.ok ()⟩
      ⟨"m1", "W1", "C67890", "U1", "hello", 3/2, none⟩
      = Except.ok UpsertOutcome.inserted := by
  refine ⟨rfl, by decide, rfl⟩

/-- C9 (amended): when the update fails, the fallback insert — with the same
derived id and the same field set — is triggered exactly when the stringified
error matches the substring test (`"404"` in `str(e)`, or `"not found"` in
`str(e).lower()`); any other update error is re-raised unchanged. -/
theorem C9_fallback_amended (ops : StoreOps) (msg : MessageInput) (e : WeaviateError)
    (hupd : ops.update (derive_weaviate_id msg.channel_id msg.ts) (msgData msg)
      = Except.error e) :
    (notFoundSignal e = true →
      upsert_message ops msg =
        match ops.insert (derive_weaviate_id msg.channel_id msg.ts) (msgData msg) with
        | Except.ok _ => Except.ok UpsertOutcome.inserted
        | Except.error inner => Except.error inner) ∧
    (notFoundSignal e = false → upsert_message ops msg = Except.error e) := by
  constructor <;> intro hsig
  · simp only [upsert_message]
    rw [hupd]
    simp [hsig]
  · simp only [upsert_message]
    rw [hupd]
    simp [hsig]

/-- Store behaviour for the C9 witness: every update reports a genuine
not-found, every insert succeeds. -/
def opsC9 : StoreOps :=
  ⟨fun _ _ => Except.error ⟨some 404, "object not found"⟩, fun _ _ => Except.ok ()⟩

/-- Message record used by the C9/C10 witnesses. -/
def msgC9 : MessageInput := ⟨"m1", "W1", "C67890", "U1", "hello", 3/2, none⟩

theorem C9_fallback_amended_witness :
    notFoundSignal ⟨some 404, "object not found"⟩ = true ∧
    upsert_message opsC9 msgC9 = Except.ok UpsertOutcome.inserted := by
  have h := C9_fallback_amended opsC9 msgC9 ⟨some 404, "object not found"⟩ rfl
  exact ⟨by decide, by rw [h.1 (by decide)]; rfl⟩

/-- If the upsert loop hit no error, every record was written. -/
theorem upsertRun_none_length (ops : StoreOps) (msgs : List MessageInput)
    (h : (upsertRun ops msgs).2 = none) : (upsertRun ops msgs).1 = msgs.length := by
  induction msgs with
  | nil => rfl
  | cons m rest ih =>
    unfold upsertRun at h ⊢
    cases hm : upsert_message ops m with
    | ok _ =>
      rw [hm] at h
      simp only [List.length_cons]
      simp at h ⊢
      rw [ih h]
    | error e =>
      rw [hm] at h
      simp at h

/-- If the upsert loop stopped on an error, the failing record itself was not
counted: strictly fewer than all records were written. -/
theorem upsertRun_err_lt (ops : StoreOps) (msgs : List MessageInput) (c : ℕ)
    (e : WeaviateError) (h : upsertRun ops msgs = (c, some e)) : c < msgs.length := by
  induction msgs generalizing c with
  | nil => simp [upsertRun] at h
  | cons m rest ih =>
    unfold upsertRun at h
    cases hm : upsert_message ops m with
    | ok _ =>
      rw [hm] at h
      simp only [Prod.mk.injEq] at h
      obtain ⟨hfst, hsnd⟩ := h
      have hpair : upsertRun ops rest = ((upsertRun ops rest).1, some e) := by
        rw [← hsnd]
      have := ih _ hpair
      simp only [List.length_cons]
      omega
    | error e2 =>
      rw [hm] at h
      simp only [Prod.mk.injEq] at h
      obtain ⟨h1, h2⟩ := h
      simp only [List.length_cons]
      omega

/-- Store behaviour for the C10 counterexample: the record `"m1"` updates
fine, every other record fails with a systemic transport error (no not-found
signal in it). -/
def opsC10 : StoreOps :=
  ⟨fun _ d => if d.message_id == "m1" then Except.ok ()
    else Except.error ⟨some 503, "connection refused"⟩,
   fun _ _ => Except.ok ()⟩

/-- A two-record batch whose first record succeeds and second fails. -/
def msgsC10 : List MessageInput :=
  [⟨"m1", "W1", "C1", "U1", "one", 1, none⟩, ⟨"m2", "W1", "C1", "U2", "two", 2, none⟩]

/-- C10 counterexample: on a batch of 2 records where the first upsert
succeeds and the second fails with a systemic error, exactly 1 record has been
written (partial progress, strictly between 0 and N) and yet the call raises
`HTTPException(500, ...)` and reports no count — the code raises for a partial
failure, and a raising batch does not imply zero progress. -/
theorem C10_partial_failure_counterexample :
    upsertRun opsC10 msgsC10 = (1, some ⟨some 503, "connection refused"⟩) ∧
    0 < (upsertRun opsC10 msgsC10).1 ∧ (upsertRun opsC10 msgsC10).1 < msgsC10.length ∧
    tool_embed_and_upsert opsC10 msgsC10
      = Except.error (PyError.httpError 500 "connection refused") := by
  refine ⟨rfl, by decide, by decide, rfl⟩

/-- C10 (amended): `embed_and_upsert` reports the exact count only on total
success — if no record fails, the call returns `N` for a batch of `N` records
(including the empty batch); the first failing record aborts the whole
remaining batch with a server error carrying the store error text, with the
(unreported) number of written records strictly below `N`. -/
theorem C10_batch_amended (ops : StoreOps) (msgs : List MessageInput) :
    ((upsertRun ops msgs).2 = none →
      tool_embed_and_upsert ops msgs = Except.ok msgs.length) /\
    (∀ c e, upsertRun ops msgs = (c, some e) →
      tool_embed_and_upsert ops msgs = Except.error (PyError.httpError 500 (errStr e))
        /\ c < msgs.length) := by
  constructor
  . intro h
    unfold tool_embed_and_upsert
    cases msgs with
    | nil => rfl
    | cons m rest =>
      rw [if_neg (by simp)]
      have hpair : upsertRun ops (m :: rest) = ((upsertRun ops (m :: rest)).1, none) := by
        rw [← h]
      rw [hpair]
      rw [upsertRun_none_length ops (m :: rest) h]
  . intro c e hrun
    have hlt := upsertRun_err_lt ops msgs c e hrun
    refine ⟨?_, hlt⟩
    unfold tool_embed_and_upsert
    cases msgs with
    | nil => simp [upsertRun] at hrun
    | cons m rest =>
      rw [if_neg (by simp), hrun]

/-- Store behaviour for the C10 witness: every update succeeds. -/
def opsAllOk : StoreOps := ⟨fun _ _ => Except.ok (), fun _ _ => Except.ok ()⟩

theorem C10_batch_amended_witness :
    tool_embed_and_upsert opsAllOk msgsC10 = Except.ok msgsC10.length ∧
    tool_embed_and_upsert opsC10 msgsC10
      = Except.error (PyError.httpError 500 "connection refused") ∧
    1 < msgsC10.length :=
  ⟨(C10_batch_amended opsAllOk msgsC10).1 rfl,
   ((C10_batch_amended opsC10 msgsC10).2 1 ⟨some 503, "connection refused"⟩ rfl).1,
   ((C10_batch_amended opsC10 msgsC10).2 1 ⟨some 503, "connection refused"⟩ rfl).2⟩

end SemanticMCP
